import Mathlib

/-!
Verification of the Sovereign deck-building game client and (spec-modelled)
engine.  The definitions below are a shallow embedding of the TypeScript
frontend under `src/frontend` and `src/unnamed`; the server engine
(`game_engine.py`, `server.py`) is not part of the source tree, so the
operations it owns are modelled from the specification and marked as such.
-/

namespace Sovereign

/-- One entry of a card's effect list (types.ts `CardEffect`):
a type tag plus an optional numeric amount. -/
structure CardEffect where
  type : String
  amount : Option Int := none
deriving Repr, DecidableEq

/-- A card definition (types.ts `Card`). -/
structure Card where
  id : String
  name : String
  name_en : Option String := none
  type : String
  subtype : Option String := none
  cost : Int
  coin_value : Option Int := none
  victory_points : Option Int := none
  description : Option String := none
  icon : Option String := none
  effects : List CardEffect
  reaction : Option String := none
deriving Repr, DecidableEq

/-- Per-player state as serialized to clients (types.ts `PlayerState`).
`hand` and `discard_pile` are optional: they are present only for the
receiving player. -/
structure PlayerState where
  id : String
  name : String
  hand_count : Nat
  deck_count : Nat
  discard_count : Nat
  play_area : List String
  actions : Int
  buys : Int
  coins : Int
  connected : Bool
  hand : Option (List String) := none
  discard_pile : Option (List String) := none
deriving Repr, DecidableEq

/-- The single outstanding decision request (types.ts `PendingAction`).
Optional fields model TS optional (possibly `undefined`) fields. -/
structure PendingAction where
  type : String
  player_id : Option String := none
  target_player_id : Option String := none
  attacker_id : Option String := none
  discard_to : Option Int := none
  max_cards : Option Int := none
  max_cost : Option Int := none
  revealed_card : Option String := none
  revealed_cards : Option (List String) := none
deriving Repr, DecidableEq

/-- A final-score entry (types.ts `ScoreEntry`). -/
structure ScoreEntry where
  id : String
  name : String
  vp : Int
deriving Repr, DecidableEq

/-- The full state snapshot a client holds (types.ts `GameState`).
The supply record is modelled as an association list. -/
structure GameState where
  game_id : String
  started : Bool
  phase : String
  current_player : Option String
  current_player_name : Option String
  supply : List (String × Int)
  trash : List String
  log : List String
  players : List PlayerState
  pending_action : Option PendingAction
  scores : Option (List ScoreEntry) := none
deriving Repr, DecidableEq

/-- A websocket message from the server (types.ts `WSMessage`). -/
structure WSMessage where
  type : String
  player_id : Option String := none
  game_id : Option String := none
  state : Option GameState := none
  message : Option String := none
deriving Repr, DecidableEq

/-- JavaScript string truthiness of a possibly absent string:
`undefined`/`null` and the empty string are falsy. -/
def truthyStr : Option String → Bool
  | some s => s != ""
  | none => false

/-- JavaScript strict equality between an optional field read through `?.`
(absent means `undefined`) and a `string | null` value: `undefined === null`
is `false`, so the comparison holds only when both sides are present and
equal. -/
def eqUndefNull (a b : Option String) : Bool :=
  match a, b with
  | some x, some y => x == y
  | _, _ => false

/-- `(me?.actions || 0)` from Hand.tsx: the actions counter of an optional
player, defaulting to 0. -/
def actionsOf (me : Option PlayerState) : Int :=
  match me with
  | some p => p.actions
  | none => 0

/-- `(me?.coins || 0)` from Supply (`src/unnamed/part_006`). -/
def coinsOf (me : Option PlayerState) : Int :=
  match me with
  | some p => p.coins
  | none => 0

/-- `(me?.buys || 0)` from Supply (`src/unnamed/part_006`). -/
def buysOf (me : Option PlayerState) : Int :=
  match me with
  | some p => p.buys
  | none => 0

/-- `getCard` from `useGameState` (`src/unnamed/part_000`, lines 114-124):
card lookup that falls back to a placeholder for ids absent from the
loaded catalog. -/
def getCard (cardDefs : String → Option Card) (id : String) : Card :=
  match cardDefs id with
  | some c => c
  | none =>
    { id := id
      name := id
      icon := some "?"
      description := some ""
      type := "action"
      cost := 0
      effects := [] }

/-- The effect-label registry from `effectLabels.ts`: a partial map from
effect type tag to a label-building function; unregistered tags map to
`none`. -/
def effectLabels (t : String) : Option (Int → String) :=
  if t == "draw" then some (fun n => "+" ++ toString n ++ " カードを引く")
  else if t == "action" then some (fun n => "+" ++ toString n ++ " アクション")
  else if t == "buy" then some (fun n => "+" ++ toString n ++ " 購入")
  else if t == "coin" then some (fun n => "+" ++ toString n ++ " コイン")
  else if t == "coin_value" then some (fun n => "+" ++ toString n ++ " コイン")
  else if t == "victory_points" then some (fun n => toString n ++ " 勝利点")
  else if t == "attack_discard_to" then
    some (fun n => "【攻撃】他者は手札" ++ toString n ++ "枚まで捨てる")
  else if t == "discard_draw" then some (fun _ => "好きな枚数を捨て、同数引く")
  else if t == "gain_card_up_to" then some (fun n => "コスト" ++ toString n ++ "以下を獲得")
  else if t == "trash" then some (fun n => "手札" ++ toString n ++ "枚まで廃棄")
  else if t == "trash_and_gain" then
    some (fun n => "1枚廃棄→コスト+" ++ toString n ++ "以下を獲得")
  else if t == "trash_treasure_gain_treasure" then
    some (fun n => "財宝廃棄→コスト+" ++ toString n ++ "以下の財宝を手札に")
  else if t == "trash_copper_for_coin" then
    some (fun n => "最安財宝を廃棄で+" ++ toString n ++ "コイン")
  else if t == "opponents_draw" then some (fun n => "他者: +" ++ toString n ++ " ドロー")
  else if t == "gain_card_to_hand" then
    some (fun n => "コスト" ++ toString n ++ "以下を手札に獲得, 手札1枚をデッキトップに")
  else if t == "topdeck_from_discard" then some (fun _ => "捨て札1枚をデッキトップに")
  else if t == "discard_top_play_action" then
    some (fun _ => "デッキトップ1枚を捨て札に。アクションならプレイ可")
  else if t == "gain_treasure_topdeck_attack_victory" then
    some (fun n => "コスト" ++ toString n ++ "の財宝をデッキトップに獲得,【攻撃】他者は勝利点をデッキトップに")
  else if t == "reveal_trash_discard_topdeck" then
    some (fun n => "デッキトップ" ++ toString n ++ "枚を公開し、各々廃棄/捨て/戻す")
  else none

/-- `buildEffectLines` from `effectLabels.ts`: derive the display lines of a
card, with the implicit `coin_value`/`victory_points` fallback when the
effect list is empty; tags without a registered label yield `null` and are
filtered out. -/
def buildEffectLines (c : Card) : List String :=
  let effects :=
    if c.effects.length == 0 then
      if c.type == "treasure" && c.coin_value.isSome then
        [{ type := "coin_value", amount := c.coin_value }]
      else if c.type == "victory" && c.victory_points.isSome then
        [{ type := "victory_points", amount := c.victory_points }]
      else c.effects
    else c.effects
  let lines := effects.filterMap (fun ef =>
    match effectLabels ef.type with
    | some fn => some (fn (ef.amount.getD 0))
    | none => none)
  if c.reaction == some "block_attack" then lines ++ ["攻撃を無効化"] else lines

/-- The outcome of clicking a card in one's hand (Hand.tsx `handleClick`). -/
inductive HandClick where
  | toggleDiscard (idx : Nat)
  | playAction (cardId : String)
  | playTreasure (cardId : String)
  | noop
deriving Repr, DecidableEq

/-- `handleClick` from Hand.tsx (lines 38-46): clicking the hand card `c`
(id `cid`, position `idx`) toggles the discard selection in discard mode,
plays an action card when it is the player's turn in the action phase with
actions remaining, and plays a treasure card when it is the player's turn
in the action or buy phase. -/
def handleClick (st : GameState) (playerId : Option String) (me : Option PlayerState)
    (c : Card) (cid : String) (idx : Nat) (discardMode : Bool) : HandClick :=
  let myTurn := st.current_player == playerId
  if discardMode then .toggleDiscard idx
  else if myTurn && c.type == "action" && st.phase == "action" && actionsOf me > 0 then
    .playAction cid
  else if myTurn && c.type == "treasure" && (st.phase == "action" || st.phase == "buy") then
    .playTreasure cid
  else .noop

/-- Which buttons the `ActionsBar` component (`src/unnamed/part_004`)
renders. -/
structure ActionsBarView where
  skipActionBtn : Bool
  playAllTreasuresBtn : Bool
  endTurnBtn : Bool
deriving Repr, DecidableEq

/-- `ActionsBar` from `src/unnamed/part_004`: nothing is rendered unless it
is the player's turn; the skip-action button appears in the action phase,
and the play-all-treasures and end-turn buttons appear in both the action
and buy phases. -/
def actionsBar (st : GameState) (playerId : Option String) : ActionsBarView :=
  let myTurn := st.current_player == playerId
  if !myTurn then { skipActionBtn := false, playAllTreasuresBtn := false, endTurnBtn := false }
  else
    { skipActionBtn := st.phase == "action"
      playAllTreasuresBtn := st.phase == "action" || st.phase == "buy"
      endTurnBtn := st.phase == "buy" || st.phase == "action" }

/-- `st.pending_action?.type` in Supply (`src/unnamed/part_006`). -/
def gainTypeOf (st : GameState) : Option String :=
  st.pending_action.map (fun pa => pa.type)

/-- `isGainMode` from Supply (`src/unnamed/part_006`, lines 19-23): a gain
pending action of one of the three variants whose acting player is this
client. -/
def isGainMode (st : GameState) (playerId : Option String) : Bool :=
  let g := gainTypeOf st
  (g == some "gain" || g == some "gain_to_hand" || g == some "gain_treasure_to_hand") &&
    eqUndefNull (st.pending_action.bind (fun pa => pa.player_id)) playerId

/-- `maxCost` from Supply (`src/unnamed/part_006`):
`st.pending_action?.max_cost ?? 0`. -/
def maxCostOf (st : GameState) : Int :=
  (st.pending_action.bind (fun pa => pa.max_cost)).getD 0

/-- `canBuy` from Supply's `renderCard` (`src/unnamed/part_006`,
lines 44-58). -/
def canBuy (st : GameState) (playerId : Option String) (me : Option PlayerState)
    (c : Card) (count : Int) : Bool :=
  (st.current_player == playerId) && st.phase == "buy" && coinsOf me ≥ c.cost &&
    count > 0 && buysOf me > 0

/-- `canGain` from Supply's `renderCard` (`src/unnamed/part_006`,
lines 44-58). -/
def canGain (st : GameState) (playerId : Option String) (c : Card) (count : Int) : Bool :=
  isGainMode st playerId && count > 0 && c.cost ≤ maxCostOf st &&
    (gainTypeOf st != some "gain_treasure_to_hand" || c.type == "treasure")

/-- The message a supply-card click sends (Supply + SupplyCardComponent). -/
inductive SupplyClick where
  | buyMsg (cardId : String)
  | gainMsg (cardId : String)
  | noop
deriving Repr, DecidableEq

/-- Clicking the supply pile of card `c` (id `cid`, `count` remaining):
`SupplyCardComponent` attaches the handler only when
`clickable = canBuy || canGain`, and the handler sends a gain selection when
`canGain` holds and a buy otherwise (`src/unnamed/part_006`, lines 44-58). -/
def supplyCardClick (st : GameState) (playerId : Option String) (me : Option PlayerState)
    (c : Card) (cid : String) (count : Int) : SupplyClick :=
  if canBuy st playerId me c count || canGain st playerId c count then
    if canGain st playerId c count then .gainMsg cid else .buyMsg cid
  else .noop

/-- One entry of a `sentry_decision` message (api.ts `SentryPrompt`). -/
structure SentryDecision where
  card_id : String
  action : String
deriving Repr, DecidableEq

/-- `SentryPrompt.handleAction` from DiscardPrompt (api.ts part, lines
134-143): record the choice `act` for revealed card index `idx`; if every
revealed card now has a choice, emit the full decision list (in revealed
order) and reset the local choices, otherwise emit nothing. Returns the new
choice map and the optionally emitted message payload. -/
def sentryHandleAction (cards : List String) (decisions : Nat → Option String)
    (idx : Nat) (act : String) : (Nat → Option String) × Option (List SentryDecision) :=
  let updated := fun i => if i == idx then some act else decisions i
  if (List.range cards.length).all (fun i => (updated i).isSome) then
    (fun _ => none, some (cards.enum.map (fun p =>
      { card_id := p.2, action := (updated p.1).getD "" })))
  else (updated, none)

/-- The client-side state held by `useGameState`
(`src/unnamed/part_000`). -/
structure ClientState where
  screen : String
  gameState : Option GameState
  playerId : Option String
  toast : Option String
  sessionStore : List (String × String)
deriving Repr, DecidableEq

/-- `sessionStorage.setItem`, modelled on an association list. -/
def storeSet (store : List (String × String)) (k v : String) : List (String × String) :=
  if store.any (fun p => p.1 == k) then
    store.map (fun p => if p.1 == k then (p.1, v) else p)
  else store ++ [(k, v)]

/-- `sessionStorage.getItem`, returning `none` for an absent key. -/
def storeGet (store : List (String × String)) (k : String) : Option String :=
  (store.find? (fun p => p.1 == k)).map (fun p => p.2)

/-- `useGameState`'s websocket `onMessage` handler (`src/unnamed/part_000`,
lines 83-97): a `joined` message records the player id and saves it to
session storage; a `state` message replaces the game state and picks the
screen from the `started` flag; an `error` message only shows a toast. -/
def onMessage (cs : ClientState) (msg : WSMessage) : ClientState :=
  if msg.type == "joined" && truthyStr msg.player_id && truthyStr msg.game_id then
    { cs with
        playerId := msg.player_id
        sessionStore := storeSet cs.sessionStore ("pid_" ++ msg.game_id.getD "")
          (msg.player_id.getD "") }
  else if msg.type == "state" && msg.state.isSome then
    match msg.state with
    | some st =>
      { cs with
          gameState := some st
          screen := if !st.started then "waiting" else "game" }
    | none => cs
  else if msg.type == "error" && truthyStr msg.message then
    { cs with toast := msg.message }
  else cs

/-- The join envelope sent on websocket open (useWebSocket,
`src/unnamed/part_001`). -/
structure JoinMsg where
  action : String
  name : String
  player_id : Option String
deriving Repr, DecidableEq

/-- `ws.onopen` from useWebSocket (`src/unnamed/part_001`, lines 28-35):
send a join message carrying the saved player id for this game when one is
stored (`savedId || undefined` drops null and the empty string). -/
def onOpenJoin (playerName : String) (savedId : Option String) : JoinMsg :=
  { action := "join"
    name := playerName
    player_id := if truthyStr savedId then savedId else none }

/-- Modelled from the spec: server-side player record of `game_engine.py`
(absent from src/) — §3 Player: id, name, connected flag, ordered hand,
deck, discard pile, play area, counters {actions, buys, coins}. -/
structure SPlayer where
  id : String
  name : String
  connected : Bool
  hand : List String
  deck : List String
  discard : List String
  play_area : List String
  actions : Int
  buys : Int
  coins : Int
deriving Repr, DecidableEq

/-- Modelled from the spec: server-side room state of `game_engine.py`
(absent from src/) — §3 Room/Game: ordered player list, current player
index, phase, supply (card id to remaining count), trash, started flag. -/
structure SGame where
  players : List SPlayer
  current : Nat
  phase : String
  supply : List (String × Nat)
  trash : List String
  started : Bool
deriving Repr, DecidableEq

/-- Remaining count of a supply pile, 0 for an absent pile. -/
def lookupCount (s : List (String × Nat)) (cid : String) : Nat :=
  match s.find? (fun p => p.1 == cid) with
  | some p => p.2
  | none => 0

/-- Decrement a supply pile by one unit. -/
def decCount (s : List (String × Nat)) (cid : String) : List (String × Nat) :=
  s.map (fun p => if p.1 == cid then (p.1, p.2 - 1) else p)

/-- Modelled from the spec: the `buy` action of `game_engine.py` (absent
from src/) — §4.1: "each buy checks `coins ≥ cost`, `buys > 0`, and pile
count `> 0`; on success it decrements buys and pile count and appends the
card to the buyer's discard", legal only for the current player in the
`buy` phase. -/
def performBuy (catalog : String → Option Card) (g : SGame) (pid cid : String) :
    Except String SGame :=
  match g.players[g.current]? with
  | none => .error "invalid current player"
  | some p =>
    if p.id != pid then .error "not your turn"
    else if g.phase != "buy" then .error "not in buy phase"
    else
      match catalog cid with
      | none => .error "unknown card"
      | some c =>
        if lookupCount g.supply cid == 0 then .error "pile empty"
        else if p.coins < c.cost then .error "not enough coins"
        else if p.buys ≤ 0 then .error "no buys left"
        else .ok { g with
          supply := decCount g.supply cid
          players := g.players.set g.current
            { p with
                coins := p.coins - c.cost
                buys := p.buys - 1
                discard := p.discard ++ [cid] } }

/-- Modelled from the spec: the validation and action-consumption step of
`play_action` in `game_engine.py` (absent from src/) — §4.1: in `action`,
the active player may play an action card, consuming one action; the card
moves from hand to play area.  Effect execution is a separate subsequent
step and is not part of this definition. -/
def playActionCard (catalog : String → Option Card) (g : SGame) (pid cid : String) :
    Except String SGame :=
  match g.players[g.current]? with
  | none => .error "invalid current player"
  | some p =>
    if p.id != pid then .error "not your turn"
    else if g.phase != "action" then .error "not in action phase"
    else if p.actions ≤ 0 then .error "no actions left"
    else if !(p.hand.contains cid) then .error "card not in hand"
    else
      match catalog cid with
      | none => .error "unknown card"
      | some c =>
        if c.type != "action" then .error "not an action card"
        else .ok { g with
          players := g.players.set g.current
            { p with
                actions := p.actions - 1
                hand := p.hand.erase cid
                play_area := p.play_area ++ [cid] } }

/-- Modelled from the spec: per-player serialization in the outbound state
snapshot of `server.py` (absent from src/) — §6: "each player's own hand
contents are included; other players are represented by counts only (hand
size, deck size, discard size) plus their play area contents". -/
def snapshotPlayer (viewerId : String) (p : SPlayer) : PlayerState :=
  { id := p.id
    name := p.name
    hand_count := p.hand.length
    deck_count := p.deck.length
    discard_count := p.discard.length
    play_area := p.play_area
    actions := p.actions
    buys := p.buys
    coins := p.coins
    connected := p.connected
    hand := if p.id == viewerId then some p.hand else none
    discard_pile := if p.id == viewerId then some p.discard else none }

/-- Modelled from the spec: the player list of the snapshot sent to the
connection bound to `viewerId` (§6 Outbound). -/
def snapshotFor (viewerId : String) (g : SGame) : List PlayerState :=
  g.players.map (snapshotPlayer viewerId)

/-- A server-to-client message, as seen by the room actor. -/
inductive ServerMsg where
  | joinedMsg (player_id : String)
  | stateMsg (players : List PlayerState)
  | errMsg (m : String)
deriving Repr, DecidableEq

/-- Modelled from the spec: the `join` handler of `server.py` /
`game_engine.py` (absent from src/) — §5: "Reconnection using a previously
issued identity must rebind to the same player record and trigger a full
state resend to that connection"; a join without a known identity creates a
fresh player record.  Returns the new room state and the messages sent to
the joining connection. -/
def handleJoin (g : SGame) (name : String) (player_id : Option String)
    (freshId : String) : SGame × List ServerMsg :=
  match player_id with
  | some pid =>
    if g.players.any (fun p => p.id == pid) then
      let g' := { g with
        players := g.players.map (fun p =>
          if p.id == pid then { p with connected := true } else p) }
      (g', [.joinedMsg pid, .stateMsg (snapshotFor pid g')])
    else
      let g' := { g with
        players := g.players ++
          [{ id := freshId, name := name, connected := true, hand := [], deck := [],
             discard := [], play_area := [], actions := 0, buys := 0, coins := 0 }] }
      (g', [.joinedMsg freshId, .stateMsg (snapshotFor freshId g')])
  | none =>
    let g' := { g with
      players := g.players ++
        [{ id := freshId, name := name, connected := true, hand := [], deck := [],
           discard := [], play_area := [], actions := 0, buys := 0, coins := 0 }] }
    (g', [.joinedMsg freshId, .stateMsg (snapshotFor freshId g')])

/-- Modelled from the spec: the room actor's reaction to one processed
action in `server.py` (absent from src/) — §6/§7: on a rejected action only
the originating connection receives an error message, no broadcast occurs
and state is unchanged; on an accepted action a full snapshot goes to every
connection in the room.  `conns` pairs each connection with the player id
it is bound to. -/
def roomStep (g : SGame) (senderConn : String) (conns : List (String × String))
    (result : Except String SGame) : SGame × List (String × ServerMsg) :=
  match result with
  | .error e => (g, [(senderConn, .errMsg e)])
  | .ok g' => (g', conns.map (fun cp => (cp.1, .stateMsg (snapshotFor cp.2 g'))))

/-! Concrete fixtures used by witnesses and counterexamples. -/

/-- A basic treasure card. -/
def copperCard : Card :=
  { id := "copper", name := "Copper", type := "treasure", cost := 0,
    coin_value := some 1, effects := [] }

/-- A cost-5 action card. -/
def lab5 : Card :=
  { id := "laboratory", name := "Laboratory", type := "action", cost := 5,
    effects := [{ type := "draw", amount := some 2 }, { type := "action", amount := some 1 }] }

/-- A sample catalog holding the two fixture cards. -/
def catalogA (cid : String) : Option Card :=
  if cid == "copper" then some copperCard
  else if cid == "laboratory" then some lab5
  else none

/-- A client-side player snapshot fixture. -/
def samplePlayer : PlayerState :=
  { id := "p1", name := "Alice", hand_count := 5, deck_count := 5, discard_count := 0,
    play_area := [], actions := 1, buys := 1, coins := 5, connected := true,
    hand := some ["copper"], discard_pile := none }

/-- A client-side game state in the action phase with `p1` active. -/
def sampleActionState : GameState :=
  { game_id := "g1", started := true, phase := "action", current_player := some "p1",
    current_player_name := some "Alice", supply := [("laboratory", 8)], trash := [],
    log := [], players := [samplePlayer], pending_action := none }

/-- A server-side two-player game in the buy phase: the active player `p1`
has 5 coins and 1 buy; the `laboratory` pile has 8 remaining. -/
def gameA : SGame :=
  { players :=
      [{ id := "p1", name := "Alice", connected := true, hand := ["copper"],
         deck := ["copper"], discard := [], play_area := [], actions := 0,
         buys := 1, coins := 5 },
       { id := "p2", name := "Bob", connected := true, hand := ["copper", "copper"],
         deck := [], discard := ["copper"], play_area := [], actions := 0,
         buys := 0, coins := 0 }],
    current := 0, phase := "buy", supply := [("laboratory", 8), ("copper", 40)],
    trash := [], started := true }

/-- `gameA` after `p1` buys a `laboratory`: coins 0, buys 0, pile 7, card
appended to the buyer's discard. -/
def gameA' : SGame :=
  { players :=
      [{ id := "p1", name := "Alice", connected := true, hand := ["copper"],
         deck := ["copper"], discard := ["laboratory"], play_area := [], actions := 0,
         buys := 0, coins := 0 },
       { id := "p2", name := "Bob", connected := true, hand := ["copper", "copper"],
         deck := [], discard := ["copper"], play_area := [], actions := 0,
         buys := 0, coins := 0 }],
    current := 0, phase := "buy", supply := [("laboratory", 7), ("copper", 40)],
    trash := [], started := true }

/-! Claim theorems. -/

/-- C10: the card lookup is total: it returns the catalog entry when the id
is present, and otherwise a placeholder card whose id and name equal the
requested id, with type action, cost 0 and an empty effect list (this is
`getCard` from `src/unnamed/part_000`). -/
theorem getCard_total_placeholder (defs : String → Option Card) (id : String) :
    (∀ c, defs id = some c → getCard defs id = c) ∧
    (defs id = none →
      getCard defs id =
        { id := id, name := id, icon := some "?", description := some "",
          type := "action", cost := 0, effects := [] }) := by
  constructor
  · intro c h
    simp [getCard, h]
  · intro h
    simp [getCard, h]

/-- Witness for C10: looking up an id in the empty catalog yields the
placeholder card. -/
theorem getCard_total_placeholder_witness :
    getCard (fun _ => none) "mystery" =
      { id := "mystery", name := "mystery", icon := some "?", description := some "",
        type := "action", cost := 0, effects := [] } :=
  (getCard_total_placeholder (fun _ => none) "mystery").2 rfl

/-- C9: processing a card's effect list is total over effect tags: the
display lines are exactly the registered labels of the recognized tags (in
order), so inserting an effect whose tag has no registered handler anywhere
into a (still nonempty) effect list leaves the output unchanged — unknown
tags are skipped, never an error (this is `buildEffectLines` from
`effectLabels.ts`). -/
theorem unknown_tags_skipped :
    (∀ c : Card, c.effects ≠ [] →
      buildEffectLines c =
        c.effects.filterMap
          (fun ef => (effectLabels ef.type).map (fun fn => fn (ef.amount.getD 0))) ++
          (if c.reaction == some "block_attack" then ["攻撃を無効化"] else [])) ∧
    (∀ (c : Card) (ef : CardEffect) (xs ys : List CardEffect),
      effectLabels ef.type = none → xs ++ ys ≠ [] →
      buildEffectLines { c with effects := xs ++ ef :: ys } =
        buildEffectLines { c with effects := xs ++ ys }) := by
  have key : ∀ c : Card, c.effects ≠ [] →
      buildEffectLines c =
        c.effects.filterMap
          (fun ef => (effectLabels ef.type).map (fun fn => fn (ef.amount.getD 0))) ++
          (if c.reaction == some "block_attack" then ["攻撃を無効化"] else []) := by
    intro c h
    have hlen : (c.effects.length == 0) = false := by
      simp [List.length_eq_zero, h]
    simp only [buildEffectLines, hlen, Bool.false_eq_true, if_false]
    have hfun :
        (fun ef : CardEffect =>
          match effectLabels ef.type with
          | some fn => some (fn (ef.amount.getD 0))
          | none => none) =
        (fun ef : CardEffect =>
          (effectLabels ef.type).map (fun fn => fn (ef.amount.getD 0))) := by
      funext ef
      cases effectLabels ef.type <;> rfl
    by_cases hr : (c.reaction == some "block_attack") = true
    · simp only [hr, if_true, hfun]
    · simp only [Bool.not_eq_true] at hr
      simp only [hr, Bool.false_eq_true, if_false, List.append_nil, hfun]
  refine ⟨key, ?_⟩
  intro c ef xs ys hnone hne
  have h1 : (xs ++ ef :: ys : List CardEffect) ≠ [] := by
    simp
  rw [key { c with effects := xs ++ ef :: ys } h1, key { c with effects := xs ++ ys } hne]
  simp [List.filterMap_append, hnone]

/-- Witness for C9: a card with an unregistered tag spliced between two
registered ones renders the same lines as without it. -/
theorem unknown_tags_skipped_witness :
    buildEffectLines
      { id := "x", name := "x", type := "action", cost := 0,
        effects := [{ type := "draw", amount := some 2 },
                    { type := "summon_dragon", amount := some 9 },
                    { type := "buy", amount := some 1 }] } =
      buildEffectLines
        { id := "x", name := "x", type := "action", cost := 0,
          effects := [{ type := "draw", amount := some 2 },
                      { type := "buy", amount := some 1 }] } :=
  (unknown_tags_skipped).2
    { id := "x", name := "x", type := "action", cost := 0, effects := [] }
    { type := "summon_dragon", amount := some 9 }
    [{ type := "draw", amount := some 2 }] [{ type := "buy", amount := some 1 }]
    rfl (by simp)

/-- C2 counterexample: in the action phase, with the active player holding
a treasure card, clicking it IS offered as a treasure-play move
(Hand.tsx `handleClick` sends `play_treasure` when the phase is `action`),
contradicting the claim that no treasure-play move is offered in the
action phase. -/
theorem treasure_offered_in_action_phase :
    sampleActionState.phase = "action" ∧
    handleClick sampleActionState (some "p1") (some samplePlayer) copperCard "copper" 0 false =
      .playTreasure "copper" := by
  constructor
  · rfl
  · rfl

/-- C2 amended: a treasure-play move is offered to the active player in
both the action and the buy phase, exactly when it is their turn and the
clicked card is a treasure (and the hand is not in discard-selection
mode); likewise the play-all-treasures button is shown in both phases. -/
theorem treasure_play_offered_iff (st : GameState) (playerId : Option String)
    (me : Option PlayerState) (c : Card) (cid : String) (idx : Nat) :
    (∀ dm : Bool,
      handleClick st playerId me c cid idx dm = .playTreasure cid ↔
        (dm = false ∧ (st.current_player == playerId) = true ∧ c.type = "treasure" ∧
          (st.phase = "action" ∨ st.phase = "buy"))) ∧
    ((actionsBar st playerId).playAllTreasuresBtn = true ↔
      (st.current_player == playerId) = true ∧
        (st.phase = "action" ∨ st.phase = "buy")) := by
  constructor
  · intro dm
    constructor
    · intro h
      unfold handleClick at h
      by_cases hdm : dm = true
      · simp [hdm] at h
      · simp only [Bool.not_eq_true] at hdm
        simp only [hdm, Bool.false_eq_true, if_false] at h
        by_cases h2 : ((st.current_player == playerId) && c.type == "action" &&
            st.phase == "action" && decide (actionsOf me > 0)) = true
        · simp [h2] at h
        · simp only [h2, Bool.false_eq_true, if_false] at h
          by_cases h3 : ((st.current_player == playerId) && c.type == "treasure" &&
              (st.phase == "action" || st.phase == "buy")) = true
          · simp only [Bool.and_eq_true, Bool.or_eq_true, beq_iff_eq] at h3
            exact ⟨hdm, by simp [h3.1.1], h3.1.2, h3.2⟩
          · simp [h3] at h
    · rintro ⟨hdm, hturn, hty, hph⟩
      unfold handleClick
      have hact : (c.type == "action") = false := by
        simp [hty]
      have htre : (c.type == "treasure") = true := by
        simp [hty]
      have hph' : (st.phase == "action" || st.phase == "buy") = true := by
        rcases hph with h | h <;> simp [h]
      simp [hdm, hturn, hact, htre, hph']
  · unfold actionsBar
    by_cases hturn : (st.current_player == playerId) = true
    · simp only [hturn, Bool.not_true, Bool.false_eq_true, if_false]
      simp only [hturn, true_and]
      simp [Bool.or_eq_true, beq_iff_eq]
    · simp only [Bool.not_eq_true] at hturn
      simp [hturn]

/-- Witness for the amended C2: in the concrete action-phase state, the
treasure-play move is offered, by the amended equivalence. -/
theorem treasure_play_offered_iff_witness :
    handleClick sampleActionState (some "p1") (some samplePlayer) copperCard "copper" 0 false =
      .playTreasure "copper" :=
  ((treasure_play_offered_iff sampleActionState (some "p1") (some samplePlayer)
      copperCard "copper" 0).1 false).2 ⟨rfl, by decide, rfl, Or.inl rfl⟩

/-- C8: in the action phase, the hand click offers an action-card play
exactly when it is the acting player's turn, the card is an action card,
the phase is `action` and the player has at least one action left
(Hand.tsx `handleClick`); and the (spec-modelled) server-side play step
succeeds only under the same guards and decrements the actions counter by
one while moving the card from hand to play area. -/
theorem action_play_guard_and_consumes (st : GameState) (playerId : Option String)
    (me : Option PlayerState) (c : Card) (cid : String) (idx : Nat) :
    (∀ dm : Bool,
      handleClick st playerId me c cid idx dm = .playAction cid ↔
        (dm = false ∧ (st.current_player == playerId) = true ∧ c.type = "action" ∧
          st.phase = "action" ∧ actionsOf me > 0)) ∧
    (∀ (catalog : String → Option Card) (g : SGame) (pid cid' : String) (g' : SGame),
      playActionCard catalog g pid cid' = .ok g' →
      ∃ p, g.players[g.current]? = some p ∧ p.id = pid ∧ g.phase = "action" ∧
        p.actions > 0 ∧ p.hand.contains cid' = true ∧
        g'.players = g.players.set g.current
          { p with
              actions := p.actions - 1
              hand := p.hand.erase cid'
              play_area := p.play_area ++ [cid'] }) := by
  constructor
  · intro dm
    constructor
    · intro h
      unfold handleClick at h
      by_cases hdm : dm = true
      · simp [hdm] at h
      · simp only [Bool.not_eq_true] at hdm
        simp only [hdm, Bool.false_eq_true, if_false] at h
        by_cases h2 : ((st.current_player == playerId) && c.type == "action" &&
            st.phase == "action" && decide (actionsOf me > 0)) = true
        · simp only [Bool.and_eq_true, beq_iff_eq, decide_eq_true_eq] at h2
          exact ⟨hdm, by simp [h2.1.1.1], h2.1.1.2, h2.1.2, h2.2⟩
        · simp only [h2, Bool.false_eq_true, if_false] at h
          by_cases h3 : ((st.current_player == playerId) && c.type == "treasure" &&
              (st.phase == "action" || st.phase == "buy")) = true
          · simp [h3] at h
          · simp [h3] at h
    · rintro ⟨hdm, hturn, hty, hph, hact⟩
      unfold handleClick
      simp [hdm, hturn, hty, hph, hact]
  · intro catalog g pid cid' g' h
    unfold playActionCard at h
    split at h
    · cases h
    · rename_i p hp
      split at h
      · cases h
      · rename_i h1
        split at h
        · cases h
        · rename_i h2
          split at h
          · cases h
          · rename_i h3
            split at h
            · cases h
            · rename_i h4
              split at h
              · cases h
              · rename_i c' hc
                split at h
                · cases h
                · rename_i h5
                  injection h with h
                  refine ⟨p, hp, ?_, ?_, ?_, ?_, ?_⟩
                  · simpa using h1
                  · simpa using h2
                  · omega
                  · simpa using h4
                  · rw [← h]

/-- Witness for C8: the concrete guard equivalence instance — in the
action-phase fixture, clicking an affordable action card offers the play
move. -/
theorem action_play_guard_witness :
    handleClick sampleActionState (some "p1") (some samplePlayer) lab5 "laboratory" 0 false =
      .playAction "laboratory" :=
  ((action_play_guard_and_consumes sampleActionState (some "p1") (some samplePlayer)
      lab5 "laboratory" 0).1 false).2 ⟨rfl, by decide, rfl, rfl, by decide⟩

/-- Decrementing a pile lowers its looked-up remaining count by one. -/
theorem lookupCount_decCount (s : List (String × Nat)) (cid : String) :
    lookupCount (decCount s cid) cid = lookupCount s cid - 1 := by
  induction s with
  | nil => rfl
  | cons hd tl ih =>
    by_cases hhd : (hd.1 == cid) = true
    · have h1 : decCount (hd :: tl) cid = (hd.1, hd.2 - 1) :: decCount tl cid := by
        unfold decCount
        rw [List.map_cons, if_pos hhd]
      rw [h1]
      simp only [lookupCount, List.find?]
      simp only [hhd]
    · have hhd' : (hd.1 == cid) = false := by
        simpa using hhd
      have h1 : decCount (hd :: tl) cid = hd :: decCount tl cid := by
        unfold decCount
        rw [List.map_cons, if_neg hhd]
      rw [h1]
      simp only [lookupCount, List.find?] at ih ⊢
      simp only [hhd']
      exact ih

/-- C1: a buy is offered for a supply pile only when it is the acting
player's turn, the phase is `buy`, the player's coins cover the card's
cost, the pile is nonempty and the player has a buy left (Supply
`renderCard`, `src/unnamed/part_006`); and the (spec-modelled) server-side
buy succeeds only under those guards, reducing coins by the cost, buys and
the pile count by one, and appending the card to the buyer's discard. -/
theorem buy_guard_and_effects :
    (∀ (st : GameState) (playerId : Option String) (me : Option PlayerState)
        (c : Card) (cid : String) (count : Int),
      supplyCardClick st playerId me c cid count = .buyMsg cid →
        st.current_player = playerId ∧ st.phase = "buy" ∧
          coinsOf me ≥ c.cost ∧ count > 0 ∧ buysOf me > 0) ∧
    (∀ (catalog : String → Option Card) (g : SGame) (pid cid : String) (c : Card)
        (g' : SGame),
      catalog cid = some c → performBuy catalog g pid cid = .ok g' →
      ∃ p, g.players[g.current]? = some p ∧ p.id = pid ∧ g.phase = "buy" ∧
        lookupCount g.supply cid > 0 ∧ p.coins ≥ c.cost ∧ p.buys > 0 ∧
        g'.players = g.players.set g.current
          { p with
              coins := p.coins - c.cost
              buys := p.buys - 1
              discard := p.discard ++ [cid] } ∧
        lookupCount g'.supply cid = lookupCount g.supply cid - 1) := by
  constructor
  · intro st playerId me c cid count h
    unfold supplyCardClick at h
    by_cases hg : canGain st playerId c count = true
    · simp [hg] at h
    · by_cases hb : canBuy st playerId me c count = true
      · unfold canBuy at hb
        simp only [Bool.and_eq_true, beq_iff_eq, decide_eq_true_eq] at hb
        exact ⟨hb.1.1.1.1, hb.1.1.1.2, hb.1.1.2, hb.1.2, hb.2⟩
      · simp [hb, hg] at h
  · intro catalog g pid cid c g' hcat h
    unfold performBuy at h
    split at h
    · cases h
    · rename_i p hp
      split at h
      · cases h
      · rename_i h1
        split at h
        · cases h
        · rename_i h2
          split at h
          · cases h
          · rename_i c'' hc
            rw [hcat] at hc
            injection hc with hc
            subst hc
            split at h
            · cases h
            · rename_i h3
              split at h
              · cases h
              · rename_i h4
                split at h
                · cases h
                · rename_i h5
                  injection h with h
                  refine ⟨p, hp, ?_, ?_, ?_, ?_, ?_, ?_, ?_⟩
                  · simpa using h1
                  · simpa using h2
                  · have : lookupCount g.supply cid ≠ 0 := by simpa using h3
                    omega
                  · omega
                  · omega
                  · rw [← h]
                  · rw [← h]
                    exact lookupCount_decCount g.supply cid

/-- Witness for C1 (Scenario A): the active player with coins 5 and buys 1
buys the cost-5 `laboratory` pile with 8 remaining; afterwards coins are 0,
buys 0, the pile holds 7 and the card sits at the end of the buyer's
discard. -/
theorem buy_scenario_a_witness :
    ∃ p, gameA.players[gameA.current]? = some p ∧ p.id = "p1" ∧ gameA.phase = "buy" ∧
      lookupCount gameA.supply "laboratory" > 0 ∧ p.coins ≥ lab5.cost ∧ p.buys > 0 ∧
      gameA'.players = gameA.players.set gameA.current
        { p with
            coins := p.coins - lab5.cost
            buys := p.buys - 1
            discard := p.discard ++ ["laboratory"] } ∧
      lookupCount gameA'.supply "laboratory" = lookupCount gameA.supply "laboratory" - 1 :=
  buy_guard_and_effects.2 catalogA gameA "p1" "laboratory" lab5 gameA' rfl rfl

/-- C3: with a pending gain of any variant (`gain`, `gain_to_hand`,
`gain_treasure_to_hand`), a supply pile click sends a gain selection
exactly when the client is the pending action's acting player, the pile is
nonempty, the card's cost is at most `max_cost`, and — for the
treasure-to-hand variant only — the card is a treasure (Supply `isGainMode`
and `renderCard`, `src/unnamed/part_006`). -/
theorem gain_selectable_iff (st : GameState) (playerId : Option String)
    (me : Option PlayerState) (c : Card) (cid : String) (count : Int) (pa : PendingAction)
    (hpa : st.pending_action = some pa)
    (hty : pa.type = "gain" ∨ pa.type = "gain_to_hand" ∨
      pa.type = "gain_treasure_to_hand") :
    supplyCardClick st playerId me c cid count = .gainMsg cid ↔
      (eqUndefNull pa.player_id playerId = true ∧ count > 0 ∧
        c.cost ≤ pa.max_cost.getD 0 ∧
        (pa.type = "gain_treasure_to_hand" → c.type = "treasure")) := by
  have hgt : gainTypeOf st = some pa.type := by
    simp [gainTypeOf, hpa]
  have hmode : isGainMode st playerId = eqUndefNull pa.player_id playerId := by
    rcases hty with h | h | h <;>
      simp [isGainMode, gainTypeOf, hpa, h]
  have hmax : maxCostOf st = pa.max_cost.getD 0 := by
    simp [maxCostOf, hpa]
  have hclick : supplyCardClick st playerId me c cid count = .gainMsg cid ↔
      canGain st playerId c count = true := by
    unfold supplyCardClick
    by_cases hg : canGain st playerId c count = true
    · simp [hg]
    · have hg' : canGain st playerId c count = false := by
        simpa using hg
      simp only [hg', Bool.or_false, Bool.false_eq_true, if_false]
      constructor
      · intro h
        split at h <;> cases h
      · intro h
        exact h.elim
  rw [hclick]
  unfold canGain
  rw [hmode, hmax, hgt]
  simp only [Bool.and_eq_true, Bool.or_eq_true, decide_eq_true_eq, bne_iff_ne, ne_eq,
    Option.some.injEq, beq_iff_eq]
  constructor
  · rintro ⟨⟨⟨he, hcnt⟩, hm⟩, hl⟩
    refine ⟨he, hcnt, hm, ?_⟩
    intro hteq
    rcases hl with h | h
    · exact absurd hteq h
    · exact h
  · rintro ⟨he, hcnt, hm, ht⟩
    refine ⟨⟨⟨he, hcnt⟩, hm⟩, ?_⟩
    by_cases hteq : pa.type = "gain_treasure_to_hand"
    · exact Or.inr (ht hteq)
    · exact Or.inl hteq

/-- A client game state with a pending `gain` action for `p1`
(max cost 4). -/
def sampleGainState : GameState :=
  { game_id := "g1", started := true, phase := "gain", current_player := some "p1",
    current_player_name := some "Alice", supply := [("copper", 40)], trash := [],
    log := [], players := [samplePlayer],
    pending_action := some { type := "gain", player_id := some "p1", max_cost := some 4 } }

/-- Witness for C3: under the concrete pending gain (max cost 4), clicking
the nonempty copper pile as `p1` sends the gain selection. -/
theorem gain_selectable_iff_witness :
    supplyCardClick sampleGainState (some "p1") (some samplePlayer) copperCard "copper" 10 =
      .gainMsg "copper" :=
  (gain_selectable_iff sampleGainState (some "p1") (some samplePlayer) copperCard
      "copper" 10 { type := "gain", player_id := some "p1", max_cost := some 4 }
      rfl (Or.inl rfl)).2
    ⟨rfl, by decide, by decide, fun h => absurd h (by decide)⟩

/-- C4: the sentry (reveal/trash/discard/topdeck) response is all-or-
nothing: while any revealed card still lacks a choice, no message is
emitted; when the message is emitted it contains exactly one decision per
revealed card, in the order of the revealed card list, each carrying a
recorded {trash, discard, topdeck} button choice (`SentryPrompt.handleAction`,
api.ts lines 134-143). -/
theorem sentry_batch_all_or_nothing (cards : List String)
    (decisions : Nat → Option String) (idx : Nat) (act : String) :
    ((∃ i, i < cards.length ∧ i ≠ idx ∧ decisions i = none) →
      (sentryHandleAction cards decisions idx act).2 = none) ∧
    (∀ ds, (sentryHandleAction cards decisions idx act).2 = some ds →
      ds.map (fun d => d.card_id) = cards ∧
      ds.length = cards.length ∧
      (∀ d ∈ ds, d.action = act ∨
        ∃ i, i < cards.length ∧ decisions i = some d.action) ∧
      ((∀ i a, decisions i = some a →
          a = "trash" ∨ a = "discard" ∨ a = "topdeck") →
        (act = "trash" ∨ act = "discard" ∨ act = "topdeck") →
        ∀ d ∈ ds, d.action = "trash" ∨ d.action = "discard" ∨
          d.action = "topdeck")) := by
  constructor
  · rintro ⟨i, hi, hne, hnone⟩
    have hcond : ¬(((List.range cards.length).all
        (fun j => (if j == idx then some act else decisions j).isSome)) = true) := by
      intro hall
      rw [List.all_eq_true] at hall
      have h2 := hall i (List.mem_range.mpr hi)
      rw [if_neg (by simpa using hne), hnone] at h2
      cases h2
    simp only [sentryHandleAction]
    rw [if_neg hcond]
  · intro ds hds
    by_cases hcond : (((List.range cards.length).all
        (fun j => (if j == idx then some act else decisions j).isSome)) = true)
    · simp only [sentryHandleAction] at hds
      rw [if_pos hcond] at hds
      injection hds with hds
      subst hds
      rw [List.all_eq_true] at hcond
      have hmem : ∀ d ∈ cards.enum.map (fun p =>
          ({ card_id := p.2,
             action := (if p.1 == idx then some act else decisions p.1).getD "" } :
            SentryDecision)),
          d.action = act ∨ ∃ i, i < cards.length ∧ decisions i = some d.action := by
        intro d hd
        rcases List.mem_map.mp hd with ⟨p, hp, rfl⟩
        have hplt : p.1 < cards.length := by
          rw [List.mem_enum_iff_getElem?] at hp
          exact (List.getElem?_eq_some.mp hp).1
        by_cases hpi : (p.1 == idx) = true
        · left
          simp [hpi]
        · right
          have hsome := hcond p.1 (List.mem_range.mpr hplt)
          rw [if_neg hpi] at hsome
          rcases Option.isSome_iff_exists.mp hsome with ⟨a, ha⟩
          refine ⟨p.1, hplt, ?_⟩
          rw [if_neg hpi, ha]
          simp [ha]
      refine ⟨?_, ?_, hmem, ?_⟩
      · rw [List.map_map]
        have : ((fun d : SentryDecision => d.card_id) ∘ (fun p : Nat × String =>
            ({ card_id := p.2,
               action := (if p.1 == idx then some act else decisions p.1).getD "" } :
              SentryDecision))) = Prod.snd := by
          funext p
          rfl
        rw [this]
        exact List.enum_map_snd cards
      · rw [List.length_map, List.enum_length]
      · intro hdec hact d hd
        rcases hmem d hd with h | ⟨i, hi, h⟩
        · rw [h]
          exact hact
        · exact hdec i d.action h
    · simp only [sentryHandleAction] at hds
      rw [if_neg hcond] at hds
      cases hds

/-- Witness for C4: with two revealed cards and no prior choice recorded,
a single choice emits nothing. -/
theorem sentry_batch_witness :
    (sentryHandleAction ["copper", "laboratory"] (fun _ => none) 1 "topdeck").2 = none :=
  (sentry_batch_all_or_nothing ["copper", "laboratory"] (fun _ => none) 1 "topdeck").1
    ⟨0, by decide, by decide, rfl⟩

/-- A client-side state fixture. -/
def sampleClient : ClientState :=
  { screen := "game", gameState := some sampleActionState, playerId := some "p1",
    toast := none, sessionStore := [("pid_g1", "p1")] }

/-- C5: a rejected action is reported only to the originating connection
with no broadcast and no state change ((spec-modelled) `roomStep`), and on
the client an error message only shows a toast: the held game state,
screen and player identity are exactly as before (`useGameState.onMessage`,
`src/unnamed/part_000` lines 83-97). -/
theorem error_leaves_state_unchanged (cs : ClientState) (msg : WSMessage)
    (h : msg.type = "error") :
    (onMessage cs msg).screen = cs.screen ∧
    (onMessage cs msg).gameState = cs.gameState ∧
    (onMessage cs msg).playerId = cs.playerId ∧
    (truthyStr msg.message = true → (onMessage cs msg).toast = msg.message) ∧
    (∀ (g : SGame) (sender : String) (conns : List (String × String)) (e : String),
      roomStep g sender conns (.error e) = (g, [(sender, .errMsg e)])) := by
  have h1 : (msg.type == "joined") = false := by simp [h]
  have h2 : (msg.type == "state") = false := by simp [h]
  unfold onMessage
  simp only [h1, h2, Bool.false_and, Bool.false_eq_true, if_false]
  by_cases ht : truthyStr msg.message = true
  · simp [h, ht, roomStep]
  · have ht' : truthyStr msg.message = false := by
      simpa using ht
    simp [h, ht', roomStep]

/-- Witness for C5: a concrete error message leaves the held game state
untouched. -/
theorem error_leaves_state_unchanged_witness :
    (onMessage sampleClient { type := "error", message := some "購入できません" }).gameState =
      sampleClient.gameState :=
  (error_leaves_state_unchanged sampleClient
    { type := "error", message := some "購入できません" } rfl).2.1

/-- C6: the snapshot built for a connection includes that player's own
hand, represents every other player without hand or discard-pile contents
(counts and public play area only), and is insensitive to the actual hand
contents of other players: replacing another player's hand by any
same-length list yields an identical snapshot entry ((spec-modelled)
`snapshotPlayer`/`snapshotFor`, matching types.ts `PlayerState` and
`OpponentCards`). -/
theorem snapshot_hides_other_hands (viewerId : String) (g : SGame) :
    (∀ p ∈ g.players, p.id = viewerId →
      (snapshotPlayer viewerId p).hand = some p.hand ∧
      snapshotPlayer viewerId p ∈ snapshotFor viewerId g) ∧
    (∀ ps ∈ snapshotFor viewerId g, ps.id ≠ viewerId →
      ps.hand = none ∧ ps.discard_pile = none) ∧
    (∀ (p : SPlayer) (h' : List String), p.id ≠ viewerId →
      h'.length = p.hand.length →
      snapshotPlayer viewerId { p with hand := h' } = snapshotPlayer viewerId p) := by
  refine ⟨?_, ?_, ?_⟩
  · intro p hp hid
    constructor
    · simp [snapshotPlayer, hid]
    · exact List.mem_map_of_mem _ hp
  · intro ps hps hne
    rcases List.mem_map.mp hps with ⟨p, hp, rfl⟩
    have hid : (p.id == viewerId) = false := by
      simpa [snapshotPlayer] using hne
    simp [snapshotPlayer, hid]
  · intro p h' hne hlen
    have hid : (p.id == viewerId) = false := by
      simpa using hne
    simp [snapshotPlayer, hid, hlen]

/-- The second player of `gameA`. -/
def bobP : SPlayer :=
  { id := "p2", name := "Bob", connected := true, hand := ["copper", "copper"],
    deck := [], discard := ["copper"], play_area := [], actions := 0, buys := 0,
    coins := 0 }

/-- Witness for C6: swapping Bob's two coppers for two other cards changes
nothing in the snapshot another player receives. -/
theorem snapshot_hides_other_hands_witness :
    snapshotPlayer "p1" { bobP with hand := ["estate", "estate"] } =
      snapshotPlayer "p1" bobP :=
  (snapshot_hides_other_hands "p1" gameA).2.2 bobP ["estate", "estate"]
    (by decide) (by decide)

/-- C7: joining with a previously issued player id that matches an existing
player record rebinds to that record instead of creating a new player
(player count, ids and hands unchanged) and triggers a full state resend to
that connection ((spec-modelled) `handleJoin`); on the client side, the
websocket open handler sends the saved player id with the join message
(useWebSocket `ws.onopen`, `src/unnamed/part_001` lines 28-35). -/
theorem rejoin_rebinds_and_resends (g : SGame) (name : String) (pid freshId : String)
    (h : g.players.any (fun p => p.id == pid) = true) :
    (handleJoin g name (some pid) freshId).1.players.length = g.players.length ∧
    (handleJoin g name (some pid) freshId).1.players.map (fun p => p.id) =
      g.players.map (fun p => p.id) ∧
    (handleJoin g name (some pid) freshId).1.players.map (fun p => p.hand) =
      g.players.map (fun p => p.hand) ∧
    (handleJoin g name (some pid) freshId).2 =
      [.joinedMsg pid,
       .stateMsg (snapshotFor pid (handleJoin g name (some pid) freshId).1)] ∧
    (∀ (pname : String) (saved : Option String), truthyStr saved = true →
      onOpenJoin pname saved = { action := "join", name := pname, player_id := saved }) := by
  simp only [handleJoin]
  rw [if_pos h]
  refine ⟨?_, ?_, ?_, ?_, ?_⟩
  · exact List.length_map _ _
  · rw [List.map_map]
    apply List.map_congr_left
    intro p _
    dsimp only [Function.comp]
    split <;> rfl
  · rw [List.map_map]
    apply List.map_congr_left
    intro p _
    dsimp only [Function.comp]
    split <;> rfl
  · rfl
  · intro pname saved ht
    unfold onOpenJoin
    rw [if_pos ht]

/-- Witness for C7: reconnecting to `gameA` as `p2` leaves the player ids
unchanged — no new player record is created. -/
theorem rejoin_rebinds_witness :
    (handleJoin gameA "Bob" (some "p2") "pX").1.players.map (fun p => p.id) =
      gameA.players.map (fun p => p.id) :=
  (rejoin_rebinds_and_resends gameA "Bob" "p2" "pX" (by decide)).2.1

end Sovereign
